import Mathlib

/-!
Shallow embedding of the higress-report-agent report-synthesis pipeline
(src/report_generator.py, src/monthly_report_generator.py,
src/changelog_generator.py) and proofs about it.

External collaborators (the GitHub MCP backend and the text-generation
backend) are modelled as an explicit environment `Env` of oracles; merge
timestamps are abstracted to what the code observes of them (presence of
the string and the `(year, month)` pair extracted by
`GitHubHelper.extract_year_month_from_date`).
-/

/-- PR category enumeration (`PRType` in report_generator.py). -/
inductive PRType where
  | feature
  | bugfix
  | doc
  | refactor
  | test
deriving DecidableEq, Repr

/-- The two fields of the `user` dict that the pipeline reads
(`login` and `html_url`). -/
structure PRUser where
  login : String
  html_url : String
deriving DecidableEq, Repr

/-- `PRInfo` dataclass from report_generator.py.  `score` is a Python int,
`pr_type` is `Optional[PRType]`, `user` is reduced to the fields read. -/
structure PRInfo where
  number : Nat
  title : String
  html_url : String
  user : PRUser
  highlight : String := ""
  function_value : String := ""
  score : Int := 0
  pr_type : Option PRType := none
  is_important : Bool := false
  detailed_analysis : String := ""
deriving DecidableEq, Repr

/-- What the code observes of a raw `merged_at` value:
`absent` = the field is missing, `None`, or the empty string (falsy);
`unparsed` = a truthy string on which
`GitHubHelper.extract_year_month_from_date` returns `(None, None)`;
`ym y m` = a truthy string from which it extracts year `y` and month `m`. -/
inductive MergeStamp where
  | absent
  | unparsed
  | ym (y m : Nat)
deriving DecidableEq, Repr

/-- Python truthiness of the raw `merged_at` value. -/
def MergeStamp.truthy : MergeStamp → Bool
  | .absent => false
  | _ => true

/-- `GitHubHelper.extract_year_month_from_date`, at the abstraction level of
`MergeStamp` (`none` models the `(None, None)` return). -/
def extract_year_month : MergeStamp → Option (Nat × Nat)
  | .ym y m => some (y, m)
  | _ => none

/-- One raw change-set record as returned by the source-control collaborator,
reduced to the fields the pipeline reads. -/
structure PRData where
  number : Nat
  title : String
  html_url : String
  user : PRUser
  merged : MergeStamp
  draft : Bool
deriving DecidableEq, Repr

/-- `BaseReportGenerator._create_pr_info`: build a fresh `PRInfo` from raw
data, analysis fields blank. -/
def create_pr_info (d : PRData) (imp : Bool) : PRInfo :=
  { number := d.number
    title := d.title
    html_url := d.html_url
    user := d.user
    highlight := ""
    function_value := ""
    score := 0
    pr_type := none
    is_important := imp
    detailed_analysis := "" }

/-- Parsed shape of a successful standard-classification response
(the dict produced by `json.loads` in `_basic_pr_analysis`); each field is
`none` when the key is absent.  The `score` value is `some none` when the
key is present but `int(...)` raises, `some (some k)` when it coerces. -/
structure ClassifyResult where
  highlight : Option String := none
  function_value : Option String := none
  score : Option (Option Int) := none
  pr_type : Option String := none
deriving DecidableEq, Repr

/-- Parsed shape of a successful deep-dive response (the four optional
narrative sections read by `_analyze_important_pr`). -/
structure DeepResult where
  usage_background : Option String := none
  feature_details : Option String := none
  usage_guide : Option String := none
  value_proposition : Option String := none
deriving DecidableEq, Repr

/-- The external collaborators of one pipeline run.
`pages p` is the `list_pull_requests` result for page `p`;
`byId n` is `get_pull_request` for id `n` (`none` covers both a falsy
result and a raised transport error, which the callers treat alike);
`classify n` is the parse outcome of the standard text-generation call for
record `n` (`none` = the call raised or `json.loads` failed);
`deepDive n enhanced` likewise for the deep-dive call, where `enhanced`
records whether the enriched detail payload was obtained;
`detailEnrichFails n` makes the enriched file-listing retrieval raise, in
which case `_get_important_pr_detailed_info` degrades to the basic payload;
`analysisRaises n` models an exception escaping the per-record loop body in
`analyze_prs_with_llm` (e.g. from the logging call — the analysis helpers
catch their own errors), reaching the loop's `except` branch;
`goodPrNumEnv` is the parsed `GOOD_PR_NUM` environment variable;
`nowMonth`/`nowYear` are `datetime.now()`'s fields used for defaulting;
`translateFn` is the observable result of `translate_to_english`, which
itself never raises. -/
structure Env where
  pages : Nat → List PRData
  byId : Nat → Option PRData
  classify : Nat → Option ClassifyResult
  deepDive : Nat → Bool → Option DeepResult
  detailEnrichFails : Nat → Bool
  analysisRaises : Nat → Bool
  goodPrNumEnv : Option Nat
  nowMonth : Nat
  nowYear : Nat
  translateFn : String → String

/-- `MonthlyReportGenerator._filter_prs_by_month`: keep the records whose
`merged_at` is truthy and parses to exactly the requested `(year, month)`.
`month = 0` / `year = 0` model falsy (`None` or `0`) arguments, for which
the source returns the input unfiltered. -/
def filter_prs_by_month (prs : List PRData) (month year : Nat) : List PRData :=
  if month = 0 ∨ year = 0 then prs
  else prs.filter fun d =>
    match extract_year_month d.merged with
    | some (y, m) => y == year && m == month
    | none => false

/-- The pagination cutoff test at the end of each iteration of
`MonthlyReportGenerator.get_pr_list`'s while-loop: taken (break) when the
filtered page is non-empty and the year/month extracted from its last
element are both truthy and precede the requested window. -/
def page_cutoff (filtered : List PRData) (month year : Nat) : Bool :=
  match filtered.getLast? with
  | none => false
  | some lastPr =>
    match extract_year_month lastPr.merged with
    | some (y, m) =>
      y != 0 && m != 0 && (decide (y < year) || (y == year && decide (m < month)))
    | none => false

/-- The records appended for one page of the windowed loop: the
month-filtered page, minus unmerged and draft items, each converted by
`_create_pr_info` with the importance flag from membership in
`important_pr_list`. -/
def page_records (prsData : List PRData) (month year : Nat)
    (important : List Nat) : List PRInfo :=
  (filter_prs_by_month prsData month year).filter
      (fun d => d.merged.truthy && !d.draft)
    |>.map fun d => create_pr_info d (decide (d.number ∈ important))

/-- The `while page <= max_pages` loop of `MonthlyReportGenerator.get_pr_list`.
`fuel` is the number of page slots left (`max_pages - page + 1`); the result
pairs the accumulated records with the number of `list_pull_requests`
requests issued. -/
def window_loop (env : Env) (month year : Nat) (important : List Nat) :
    Nat → Nat → List PRInfo × Nat
  | _, 0 => ([], 0)
  | page, fuel + 1 =>
    let prsData := env.pages page
    if prsData = [] then ([], 1)
    else
      let filtered := filter_prs_by_month prsData month year
      let recs := page_records prsData month year important
      if page_cutoff filtered month year then (recs, 1)
      else
        let rest := window_loop env month year important (page + 1) fuel
        (recs ++ rest.1, rest.2 + 1)

/-- The post-loop merge step of `MonthlyReportGenerator.get_pr_list`: fetch
each important id not already present, and append it (marked important)
whenever the fetched data is truthy and has a truthy `merged_at`. -/
def important_merge_step (env : Env) (important : List Nat)
    (pr_list : List PRInfo) : List PRInfo :=
  let existing := pr_list.map (·.number)
  let missing := important.filter fun n => ¬ n ∈ existing
  missing.flatMap fun n =>
    match env.byId n with
    | some d => if d.merged.truthy then [create_pr_info d true] else []
    | none => []

namespace Monthly

/-- `MonthlyReportGenerator.get_pr_list`.  `month0`/`year0` are the raw
keyword arguments (`0` models falsy), defaulted from the current date as in
the source; `owner`/`repo` plumbing is elided because the collaborator is
modelled keyed by page and id.  Returns the record list together with the
number of page-listing requests issued. -/
def get_pr_list (env : Env) (month0 year0 : Nat) (important : List Nat) :
    List PRInfo × Nat :=
  let month := if month0 = 0 then env.nowMonth else month0
  let year := if year0 = 0 then env.nowYear else year0
  let loopRes := window_loop env month year important 1 20
  (loopRes.1 ++ important_merge_step env important loopRes.1, loopRes.2)

end Monthly

/-- `ChangelogReportGenerator._parse_pr_type`. -/
def parse_pr_type (s : String) : PRType :=
  match s.toLower with
  | "feature" => .feature
  | "bugfix" => .bugfix
  | "doc" => .doc
  | "refactor" => .refactor
  | "test" => .test
  | _ => .feature

/-- `BaseReportGenerator._basic_pr_analysis`.  `parseType` records whether
the generator defines `_parse_pr_type` (true for the changelog generator,
false for the monthly one).  On `none` (the call raised or the response did
not parse) the `except` branch fills empty highlight/value with the generic
fallbacks; on success the parsed fields are applied in source order. -/
def basic_pr_analysis (parseType : Bool) (env : Env) (pr : PRInfo) : PRInfo :=
  match env.classify pr.number with
  | none =>
    { pr with
      highlight := if pr.highlight = "" then "技术更新" else pr.highlight
      function_value :=
        if pr.function_value = "" then "功能改进" else pr.function_value }
  | some r =>
    -- The source mutates the record field by field in sequence
    -- (highlight/function_value, then score, then pr_type); the updates
    -- touch independent fields, so they are combined into one update here.
    { pr with
      highlight := r.highlight.getD pr.highlight
      function_value := r.function_value.getD pr.function_value
      score := match r.score with
        | none => pr.score
        | some none => 0
        | some (some k) => k
      pr_type := match r.pr_type with
        | some t => if parseType then some (parse_pr_type t) else pr.pr_type
        | none => pr.pr_type }

/-- `BaseReportGenerator._analyze_single_pr`: skip the collaborator entirely
when both highlight and function_value are already populated.  The second
component counts text-generation requests made. -/
def analyze_single_pr (parseType : Bool) (env : Env) (pr : PRInfo) :
    PRInfo × Nat :=
  if pr.highlight ≠ "" ∧ pr.function_value ≠ "" then (pr, 0)
  else (basic_pr_analysis parseType env pr, 1)

/-- The narrative sections assembled from a parsed deep-dive response: a
section is emitted only when its field is present and truthy (non-empty). -/
def deep_sections (d : DeepResult) : List String :=
  (match d.usage_background with
    | some s => if s = "" then [] else ["**使用背景**\n\n" ++ s]
    | none => []) ++
  (match d.feature_details with
    | some s => if s = "" then [] else ["**功能详述**\n\n" ++ s]
    | none => []) ++
  (match d.usage_guide with
    | some s => if s = "" then [] else ["**使用方式**\n\n" ++ s]
    | none => []) ++
  (match d.value_proposition with
    | some s => if s = "" then [] else ["**功能价值**\n\n" ++ s]
    | none => [])

/-- Generic fallback narrative written by the deep-dive `except` branch. -/
def deep_dive_fallback : String := "详细分析暂时不可用，请参考基础信息。"

/-- `_analyze_important_pr` (report_generator.py and its copy in
changelog_generator.py, which differ only in code-fence stripping below the
parse abstraction): run the standard pass, then the deep-dive pass.  A
failure of the enriched detail retrieval (`detailEnrichFails`) is swallowed
inside `_get_important_pr_detailed_info`, which degrades to the basic
payload; only a raised generation call or an unparseable response
(`deepDive … = none`) reaches the `except` branch that writes the generic
fallback narrative. -/
def analyze_important_pr (parseType : Bool) (env : Env) (pr : PRInfo) :
    PRInfo × Nat :=
  let base := analyze_single_pr parseType env pr
  let enhanced := !env.detailEnrichFails base.1.number
  match env.deepDive base.1.number enhanced with
  | none => ({ base.1 with detailed_analysis := deep_dive_fallback }, base.2 + 1)
  | some d =>
    ({ base.1 with
        detailed_analysis := String.intercalate "\n\n" (deep_sections d) },
      base.2 + 1)

/-- Stable descending insertion by an integer key, matching the behaviour of
Python's stable `list.sort(key=…, reverse=True)`: an element is placed
before the first element with a strictly smaller key. -/
def insert_desc_by (f : PRInfo → Int) (x : PRInfo) : List PRInfo → List PRInfo
  | [] => [x]
  | y :: ys => if f y ≤ f x then x :: y :: ys else y :: insert_desc_by f x ys

/-- Stable descending sort by an integer key. -/
def sort_desc_by (f : PRInfo → Int) : List PRInfo → List PRInfo
  | [] => []
  | x :: xs => insert_desc_by f x (sort_desc_by f xs)

namespace Monthly

/-- The score defaulting after a successful analysis in
`MonthlyReportGenerator.analyze_prs_with_llm`: a falsy (zero) score is
replaced by the default 50 before the record is appended. -/
def score_default (a : PRInfo) : PRInfo :=
  if a.score ≠ 0 then a else { a with score := 50 }

/-- Body of one iteration of `MonthlyReportGenerator.analyze_prs_with_llm`'s
loop: on an escaped exception the `except` branch fills fallbacks and score
30; otherwise important records get the detailed pass and normal records the
standard pass, and a falsy resulting score is defaulted to 50. -/
def analyze_step (env : Env) (pr : PRInfo) : PRInfo :=
  if env.analysisRaises pr.number then
    { pr with
      highlight := if pr.highlight = "" then "技术更新" else pr.highlight
      function_value :=
        if pr.function_value = "" then "功能改进" else pr.function_value
      score := 30 }
  else if pr.is_important then
    score_default (analyze_important_pr false env pr).1
  else
    score_default (analyze_single_pr false env pr).1

/-- The accumulation loop of `MonthlyReportGenerator.analyze_prs_with_llm`
(one appended record per input record, in order). -/
def analyze_loop (env : Env) : List PRInfo → List PRInfo
  | [] => []
  | pr :: rest => analyze_step env pr :: analyze_loop env rest

/-- `MonthlyReportGenerator.analyze_prs_with_llm`: analyze each record, sort
by descending score, and keep the top `GOOD_PR_NUM` (default 10) records. -/
def analyze_prs_with_llm (env : Env) (prs : List PRInfo) : List PRInfo :=
  let analyzed := analyze_loop env prs
  let sorted := sort_desc_by (·.score) analyzed
  sorted.take (env.goodPrNumEnv.getD 10)

/-- The record collection the monthly report is rendered from: retrieval
followed by analysis/selection. -/
def final_records (env : Env) (month0 year0 : Nat) (important : List Nat) :
    List PRInfo :=
  analyze_prs_with_llm env (get_pr_list env month0 year0 important).1

end Monthly

/-- Left-fold string accumulation, mirroring the `section += …` loops of the
rendering code. -/
def str_concat (l : List String) : String := l.foldl (· ++ ·) ""

/-- `ChangelogReportGenerator._group_prs_by_type`, read back at one
category: the records whose category (defaulting `None` to feature) is `t`,
sorted by descending number (`grouped_prs.get(t, [])`). -/
def group_of_type (prs : List PRInfo) (t : PRType) : List PRInfo :=
  sort_desc_by (fun pr => (pr.number : Int))
    (prs.filter fun pr => pr.pr_type.getD .feature == t)

/-- The `type_names` mapping of `_generate_overview_section`, in its
insertion order. -/
def overview_type_names : List (PRType × String) :=
  [(.feature, "新功能"), (.bugfix, "Bug修复"), (.refactor, "重构优化"),
   (.doc, "文档更新"), (.test, "测试改进")]

/-- `ChangelogReportGenerator._generate_overview_section`. -/
def generate_overview_section (prs : List PRInfo) : String :=
  let overview := "## 📋 本次发布概览\n\n" ++ "本次发布包含 **" ++
    toString prs.length ++ "** 项更新，涵盖了功能增强、Bug修复、性能优化等多个方面。\n\n"
  let type_stats := overview_type_names.filterMap fun tn =>
    let c := (group_of_type prs tn.1).length
    if c ≠ 0 then some ("**" ++ tn.2 ++ "**: " ++ toString c ++ "项") else none
  let overview := overview ++
    (if type_stats = [] then ""
     else "### 更新内容分布\n\n" ++ "- " ++
       String.intercalate "\n- " type_stats ++ "\n\n")
  let important_prs := prs.filter (·.is_important)
  let overview := overview ++
    (if important_prs = [] then ""
     else "### ⭐ 重点关注\n\n本次发布包含 **" ++ toString important_prs.length ++
       "** 项重要更新，建议重点关注：\n\n" ++
       str_concat (important_prs.map fun pr =>
         "- **" ++ pr.title ++ "** ([#" ++ toString pr.number ++ "](" ++
           pr.html_url ++ ")): " ++ pr.function_value ++ "\n") ++
       "\n详细信息请查看下方重要功能详述部分。\n\n")
  overview ++ "---\n\n"

/-- One numbered block of `_generate_important_features_section`. -/
def important_feature_block (i : Nat) (pr : PRInfo) : String :=
  "### " ++ toString i ++ ". " ++ pr.title ++ "\n\n" ++
  "**相关PR**: [#" ++ toString pr.number ++ "](" ++ pr.html_url ++ ") | " ++
  "**贡献者**: [" ++ pr.user.login ++ "](" ++ pr.user.html_url ++ ")\n\n" ++
  (if pr.detailed_analysis ≠ "" then pr.detailed_analysis ++ "\n\n"
   else "**Change Log**: " ++ pr.highlight ++ "\n\n" ++
     "**Feature Value**: " ++ pr.function_value ++ "\n\n") ++
  "---\n\n"

/-- `ChangelogReportGenerator._generate_important_features_section`. -/
def generate_important_features_section (important_prs : List PRInfo) : String :=
  "## 🌟 重要功能详述\n\n" ++ "以下是本次发布中的重要功能和改进的详细说明：\n\n" ++
  str_concat ((important_prs.enumFrom 1).map fun ipr =>
    important_feature_block ipr.1 ipr.2)

/-- The compact per-record entry of `_generate_changelog_section`. -/
def entry_string (pr : PRInfo) : String :=
  "- **Related PR**: [#" ++ toString pr.number ++ "](" ++ pr.html_url ++ ")\n" ++
  "  **Contributor**: " ++ pr.user.login ++ "\n" ++
  "  **Change Log**: " ++ pr.highlight ++ "\n" ++
  "  **Feature Value**: " ++ pr.function_value ++ "\n\n"

/-- The `type_order` heading list of `_generate_changelog_section`. -/
def changelog_type_order : List (PRType × String) :=
  [(.feature, "### 🚀 新功能 (Features)"),
   (.bugfix, "### 🐛 Bug修复 (Bug Fixes)"),
   (.refactor, "### ♻️ 重构优化 (Refactoring)"),
   (.doc, "### 📚 文档更新 (Documentation)"),
   (.test, "### 🧪 测试改进 (Testing)")]

/-- The block rendered for one category of `_generate_changelog_section`
(empty when the category has no records). -/
def changelog_type_block (prs : List PRInfo) (tt : PRType × String) : String :=
  let group := group_of_type prs tt.1
  if group = [] then ""
  else tt.2 ++ "\n\n" ++ str_concat (group.map entry_string)

/-- `ChangelogReportGenerator._generate_changelog_section` (applied, as in
`generate_report`, to the non-important records only). -/
def generate_changelog_section (normal_prs : List PRInfo) : String :=
  if normal_prs = [] then ""
  else "## 📝 完整变更日志\n\n" ++
    str_concat (changelog_type_order.map (changelog_type_block normal_prs))

/-- The `type_order` naming of `_generate_statistics_section`. -/
def stats_type_order : List (PRType × String) :=
  [(.feature, "🚀 新功能"), (.bugfix, "🐛 Bug修复"), (.refactor, "♻️ 重构优化"),
   (.doc, "📚 文档更新"), (.test, "🧪 测试改进")]

/-- `ChangelogReportGenerator._generate_statistics_section`. -/
def generate_statistics_section (prs : List PRInfo) : String :=
  let base := "---\n\n## 📊 发布统计\n\n" ++
    str_concat (stats_type_order.map fun tn =>
      let c := (group_of_type prs tn.1).length
      if c ≠ 0 then "- " ++ tn.2 ++ ": " ++ toString c ++ "项\n" else "")
  let important_count := (prs.filter (·.is_important)).length
  base ++ "\n**总计**: " ++ toString prs.length ++ "项更改" ++
    (if important_count ≠ 0 then
      "（包含" ++ toString important_count ++ "项重要更新）" else "") ++
    "\n\n" ++ "感谢所有贡献者的辛勤付出！🎉\n"

namespace Changelog

/-- `ChangelogReportGenerator.get_pr_list`: empty id list degrades to an
empty result with a logged warning; otherwise the union of the id list and
the important list is fetched id by id, keeping every truthy result
unconditionally (no merged/draft check).  CPython's `list(set(…))` iteration
order is unspecified; it is modelled as first-occurrence order.  The
`owner`/`repo` resolution (including the `self.default_owner` attribute
lookup) is elided because the collaborator is modelled keyed by id. -/
def get_pr_list (env : Env) (pr_num_list important : List Nat) : List PRInfo :=
  if pr_num_list = [] then []
  else
    ((pr_num_list ++ important).eraseDups).flatMap fun n =>
      match env.byId n with
      | some d =>
        [{ number := d.number
           title := d.title
           html_url := d.html_url
           user := d.user
           highlight := ""
           function_value := ""
           score := 0
           pr_type := none
           is_important := decide (n ∈ important)
           detailed_analysis := "" }]
      | none => []

/-- Body of one iteration of `ChangelogReportGenerator.analyze_prs_with_llm`:
an escaped exception reaches the `except` branch (fallback strings, and a
short unavailable-narrative for important records); otherwise important
records get the detailed pass and normal records the standard pass. -/
def analyze_step (env : Env) (pr : PRInfo) : PRInfo :=
  if env.analysisRaises pr.number then
    { pr with
      highlight := if pr.highlight = "" then "技术更新" else pr.highlight
      function_value :=
        if pr.function_value = "" then "功能改进" else pr.function_value
      detailed_analysis :=
        if pr.is_important then "详细分析暂不可用" else pr.detailed_analysis }
  else if pr.is_important then (analyze_important_pr true env pr).1
  else (analyze_single_pr true env pr).1

/-- `ChangelogReportGenerator.analyze_prs_with_llm`. -/
def analyze_prs_with_llm (env : Env) : List PRInfo → List PRInfo
  | [] => []
  | pr :: rest => analyze_step env pr :: analyze_prs_with_llm env rest

/-- `ChangelogReportGenerator.generate_report`: the important records go to
the important-features section, the remaining records to the grouped
changelog section, and the statistics cover all records. -/
def generate_report (analyzed_prs : List PRInfo) : String :=
  "# Release Notes\n\n" ++ generate_overview_section analyzed_prs ++
    (if analyzed_prs.filter (·.is_important) = [] then ""
     else generate_important_features_section
       (analyzed_prs.filter (·.is_important))) ++
    generate_changelog_section (analyzed_prs.filter fun pr => !pr.is_important) ++
    generate_statistics_section analyzed_prs

/-- `ReportGeneratorInterface.create_report` instantiated for the changelog
generator: retrieval, analysis, rendering, persistence of `report.md`, and
optionally the translated `report.EN.md`.  The result pairs the report text
with the `(filename, content)` pairs handed to `save_report_to_file`. -/
def create_report (env : Env) (pr_num_list important : List Nat)
    (translate : Bool) : String × List (String × String) :=
  let pr_list := get_pr_list env pr_num_list important
  let analyzed := analyze_prs_with_llm env pr_list
  let report := generate_report analyzed
  let saves := [("report.md", report)] ++
    (if translate then [("report.EN.md", env.translateFn report)] else [])
  (report, saves)

end Changelog

/-! Concrete data and environments used to evaluate the pipeline on
specific inputs. -/

/-- A fixed author record used by the concrete examples. -/
def userX : PRUser := { login := "alice", html_url := "https://example.org/u/alice" }

/-- An environment whose every call fails or returns nothing; the
text-generation oracles all report parse failure. -/
def null_env : Env :=
  { pages := fun _ => []
    byId := fun _ => none
    classify := fun _ => none
    deepDive := fun _ _ => none
    detailEnrichFails := fun _ => false
    analysisRaises := fun _ => false
    goodPrNumEnv := none
    nowMonth := 1
    nowYear := 1
    translateFn := fun s => s }

/-- An in-window (May 2025), merged, non-draft change-set numbered `i`. -/
def c1_page_pr (i : Nat) : PRData :=
  { number := i, title := "in-window change", html_url := "https://example.org/pr"
    user := userX, merged := .ym 2025 5, draft := false }

/-- A merged, non-draft change-set numbered 100 whose merge date (January
2025) lies outside the requested May 2025 window. -/
def c1_important_pr : PRData :=
  { number := 100, title := "old important change"
    html_url := "https://example.org/pr100", user := userX
    merged := .ym 2025 1, draft := false }

/-- Environment for the top-N truncation scenario: page 1 carries eleven
in-window records scoring 100, the flagged id 100 is fetchable and merged
but scores 10, and `GOOD_PR_NUM` is unset (default 10). -/
def c1_env : Env :=
  { pages := fun p => if p = 1 then (List.range 11).map (fun i => c1_page_pr (i + 1)) else []
    byId := fun n => if n = 100 then some c1_important_pr else none
    classify := fun n =>
      if n = 100 then
        some { highlight := some "h", function_value := some "v", score := some (some 10) }
      else
        some { highlight := some "h", function_value := some "v", score := some (some 100) }
    deepDive := fun _ _ => none
    detailEnrichFails := fun _ => false
    analysisRaises := fun _ => false
    goodPrNumEnv := none
    nowMonth := 1
    nowYear := 1
    translateFn := fun s => s }

/-- A merged, non-draft change-set whose merge date (March 2025) strictly
precedes the May 2025 window. -/
def c2_old_pr : PRData :=
  { number := 3, title := "pre-window change", html_url := "https://example.org/pr3"
    user := userX, merged := .ym 2025 3, draft := false }

/-- Environment whose listing endpoint returns, on every page, one
non-empty page consisting of a single pre-window record. -/
def c2_env : Env :=
  { null_env with pages := fun _ => [c2_old_pr] }

/-- An unmerged draft change-set. -/
def c3_draft_pr : PRData :=
  { number := 1, title := "wip draft", html_url := "https://example.org/pr1"
    user := userX, merged := .absent, draft := true }

/-- Environment whose by-id endpoint returns the unmerged draft for id 1. -/
def c3_env : Env :=
  { null_env with byId := fun n => if n = 1 then some c3_draft_pr else none }

/-- A merged, non-draft, in-window (May 2025) change-set numbered 8. -/
def w_page_pr : PRData :=
  { number := 8, title := "feat: add route retries", html_url := "https://example.org/pr8"
    user := userX, merged := .ym 2025 5, draft := false }

/-- Environment whose page 1 carries one in-window record. -/
def w_env : Env :=
  { null_env with pages := fun p => if p = 1 then [w_page_pr] else [] }

/-- A flagged-important analyzed record (category feature). -/
def c4_important_rec : PRInfo :=
  { number := 7, title := "Wasm plugin hot reload", html_url := "https://example.org/pr7"
    user := userX, highlight := "重载机制", function_value := "免重启生效", score := 0
    pr_type := some .feature, is_important := true, detailed_analysis := "深度分析文本" }

/-- A normal analyzed record (category bugfix). -/
def c4_normal_rec : PRInfo :=
  { number := 9, title := "fix: header race", html_url := "https://example.org/pr9"
    user := userX, highlight := "并发修复", function_value := "稳定性提升", score := 0
    pr_type := some .bugfix, is_important := false, detailed_analysis := "" }

/-- A record whose highlight and function_value are already populated. -/
def c7_done_rec : PRInfo :=
  { number := 2, title := "feat: done", html_url := "https://example.org/pr2"
    user := userX, highlight := "已有看点", function_value := "已有价值", score := 7
    pr_type := none, is_important := false, detailed_analysis := "" }

/-- A record with blank analysis fields. -/
def c7_fresh_rec : PRInfo :=
  { number := 3, title := "feat: fresh", html_url := "https://example.org/pr3"
    user := userX, highlight := "", function_value := "", score := 0
    pr_type := none, is_important := false, detailed_analysis := "" }

/-- A flagged-important record with blank analysis fields, numbered 7. -/
def c8_rec : PRInfo :=
  { number := 7, title := "big feature", html_url := "https://example.org/pr7"
    user := userX, highlight := "", function_value := "", score := 0
    pr_type := none, is_important := true, detailed_analysis := "" }

/-- Environment for the deep-dive scenario in which the enriched detail
retrieval raises for record 7 (so the stage degrades to the basic payload)
while the generation call on the degraded payload succeeds and parses. -/
def c8_env : Env :=
  { null_env with
    detailEnrichFails := fun n => n == 7
    deepDive := fun n enhanced =>
      if n == 7 && !enhanced then some { usage_background := some "背景" } else none }

/-- Environment in which the per-record loop body raises for record 5. -/
def c10_env : Env :=
  { null_env with analysisRaises := fun n => n == 5 }

/-- A normal record numbered 5 with blank analysis fields. -/
def c10_rec : PRInfo :=
  { number := 5, title := "feat: five", html_url := "https://example.org/pr5"
    user := userX, highlight := "", function_value := "", score := 0
    pr_type := none, is_important := false, detailed_analysis := "" }


section SortLemmas

theorem mem_insert_desc_by (f : PRInfo → Int) (x a : PRInfo) :
    ∀ l : List PRInfo, a ∈ insert_desc_by f x l ↔ a = x ∨ a ∈ l := by
  intro l
  induction l with
  | nil => simp [insert_desc_by]
  | cons y ys ih =>
    simp only [insert_desc_by]
    by_cases h : f y ≤ f x
    · simp [h]
    · simp only [if_neg h, List.mem_cons, ih]
      tauto

theorem mem_sort_desc_by (f : PRInfo → Int) (a : PRInfo) :
    ∀ l : List PRInfo, a ∈ sort_desc_by f l ↔ a ∈ l := by
  intro l
  induction l with
  | nil => simp [sort_desc_by]
  | cons y ys ih =>
    simp [sort_desc_by, mem_insert_desc_by, ih]

theorem length_insert_desc_by (f : PRInfo → Int) (x : PRInfo) :
    ∀ l : List PRInfo, (insert_desc_by f x l).length = l.length + 1 := by
  intro l
  induction l with
  | nil => rfl
  | cons y ys ih =>
    simp only [insert_desc_by]
    by_cases h : f y ≤ f x
    · simp [h]
    · simp [h, ih]

theorem length_sort_desc_by (f : PRInfo → Int) :
    ∀ l : List PRInfo, (sort_desc_by f l).length = l.length := by
  intro l
  induction l with
  | nil => rfl
  | cons y ys ih => simp [sort_desc_by, length_insert_desc_by, ih]

theorem pairwise_insert_desc_by (f : PRInfo → Int) (x : PRInfo) :
    ∀ l : List PRInfo, l.Pairwise (fun u v => f v ≤ f u) →
      (insert_desc_by f x l).Pairwise (fun u v => f v ≤ f u) := by
  intro l
  induction l with
  | nil => intro _; simp [insert_desc_by]
  | cons y ys ih =>
    intro hp
    rw [List.pairwise_cons] at hp
    simp only [insert_desc_by]
    by_cases h : f y ≤ f x
    · rw [if_pos h]
      refine List.pairwise_cons.2 ⟨?_, List.pairwise_cons.2 hp⟩
      intro b hb
      rcases List.mem_cons.1 hb with rfl | hb
      · exact h
      · exact le_trans (hp.1 b hb) h
    · rw [if_neg h]
      refine List.pairwise_cons.2 ⟨?_, ih hp.2⟩
      intro b hb
      rcases (mem_insert_desc_by f x b ys).1 hb with rfl | hb
      · exact le_of_not_le h
      · exact hp.1 b hb

theorem pairwise_sort_desc_by (f : PRInfo → Int) :
    ∀ l : List PRInfo, (sort_desc_by f l).Pairwise (fun u v => f v ≤ f u) := by
  intro l
  induction l with
  | nil => simp [sort_desc_by]
  | cons y ys ih => exact pairwise_insert_desc_by f y _ ih

end SortLemmas

section LoopLemmas

theorem getLast?_mem_list {α : Type} (l : List α) (a : α)
    (h : l.getLast? = some a) : a ∈ l := by
  induction l with
  | nil => simp [List.getLast?] at h
  | cons x xs ih =>
    cases xs with
    | nil =>
      simp only [List.getLast?_singleton, Option.some.injEq] at h
      simp [h]
    | cons y ys =>
      rw [List.getLast?_cons_cons] at h
      exact List.mem_cons_of_mem x (ih h)

theorem extract_of_mem_filter_month {prs : List PRData} {month year : Nat}
    {d : PRData} (hm : month ≠ 0) (hy : year ≠ 0)
    (hd : d ∈ filter_prs_by_month prs month year) :
    extract_year_month d.merged = some (year, month) := by
  unfold filter_prs_by_month at hd
  rw [if_neg (by tauto)] at hd
  have hcond := (List.mem_filter.1 hd).2
  cases he : extract_year_month d.merged with
  | none => rw [he] at hcond; simp at hcond
  | some ym =>
    obtain ⟨y, m⟩ := ym
    rw [he] at hcond
    simp only [Bool.and_eq_true, beq_iff_eq] at hcond
    rw [hcond.1, hcond.2]

/-- The pagination cutoff is dead code: the inspected last element comes
from the month-filtered list, whose elements all carry exactly the
requested `(year, month)`, so the strictly-older test never holds. -/
theorem page_cutoff_of_filter_false (prs : List PRData) (month year : Nat)
    (hm : month ≠ 0) (hy : year ≠ 0) :
    page_cutoff (filter_prs_by_month prs month year) month year = false := by
  unfold page_cutoff
  cases hl : (filter_prs_by_month prs month year).getLast? with
  | none => rfl
  | some lastPr =>
    have hmem := getLast?_mem_list _ _ hl
    have hex := extract_of_mem_filter_month hm hy hmem
    simp [hex, Nat.lt_irrefl]

theorem window_loop_count_le (env : Env) (month year : Nat)
    (important : List Nat) :
    ∀ fuel page, (window_loop env month year important page fuel).2 ≤ fuel := by
  intro fuel
  induction fuel with
  | zero => intro page; simp [window_loop]
  | succ n ih =>
    intro page
    simp only [window_loop]
    by_cases h1 : env.pages page = []
    · simp [h1]
    · rw [if_neg h1]
      by_cases h2 : page_cutoff (filter_prs_by_month (env.pages page) month year)
          month year
      · simp [h2]
      · simp only [if_neg h2]
        have := ih (page + 1)
        omega

theorem window_loop_count_of_nonempty (env : Env) (month year : Nat)
    (important : List Nat) (hm : month ≠ 0) (hy : year ≠ 0) :
    ∀ fuel page, (∀ q, page ≤ q → q < page + fuel → env.pages q ≠ []) →
      (window_loop env month year important page fuel).2 = fuel := by
  intro fuel
  induction fuel with
  | zero => intro page _; simp [window_loop]
  | succ n ih =>
    intro page hne
    have h1 : env.pages page ≠ [] := hne page le_rfl (by omega)
    simp only [window_loop]
    rw [if_neg h1, if_neg (by rw [page_cutoff_of_filter_false _ _ _ hm hy]; simp)]
    have := ih (page + 1) (fun q hq1 hq2 => hne q (by omega) (by omega))
    simp [this]

theorem mem_page_records {prsData : List PRData} {month year : Nat}
    {important : List Nat} {pr : PRInfo}
    (h : pr ∈ page_records prsData month year important) :
    ∃ d : PRData, d.merged.truthy = true ∧ d.draft = false ∧
      pr = create_pr_info d (decide (d.number ∈ important)) := by
  unfold page_records at h
  obtain ⟨d, hd, rfl⟩ := List.mem_map.1 h
  have hcond := (List.mem_filter.1 hd).2
  simp only [Bool.and_eq_true, Bool.not_eq_true'] at hcond
  exact ⟨d, hcond.1, hcond.2, rfl⟩

theorem mem_window_loop {env : Env} {month year : Nat} {important : List Nat}
    {pr : PRInfo} :
    ∀ {fuel page : Nat},
      pr ∈ (window_loop env month year important page fuel).1 →
      ∃ d : PRData, d.merged.truthy = true ∧ d.draft = false ∧
        pr = create_pr_info d (decide (d.number ∈ important)) := by
  intro fuel
  induction fuel with
  | zero => intro page h; simp [window_loop] at h
  | succ n ih =>
    intro page h
    simp only [window_loop] at h
    by_cases h1 : env.pages page = []
    · rw [if_pos h1] at h; simp at h
    · rw [if_neg h1] at h
      by_cases h2 : page_cutoff (filter_prs_by_month (env.pages page) month year)
          month year
      · rw [if_pos h2] at h
        exact mem_page_records h
      · rw [if_neg h2] at h
        rcases List.mem_append.1 h with hl | hr
        · exact mem_page_records hl
        · exact ih hr

theorem mem_important_merge_step {env : Env} {important : List Nat}
    {pr_list : List PRInfo} {pr : PRInfo}
    (h : pr ∈ important_merge_step env important pr_list) :
    ∃ n : Nat, ∃ d : PRData, n ∈ important ∧ env.byId n = some d ∧
      d.merged.truthy = true ∧ pr = create_pr_info d true := by
  unfold important_merge_step at h
  obtain ⟨n, hn, hpr⟩ := List.mem_flatMap.1 h
  have hn' : n ∈ important := (List.mem_filter.1 hn).1
  cases hb : env.byId n with
  | none => rw [hb] at hpr; simp at hpr
  | some d =>
    rw [hb] at hpr
    by_cases ht : d.merged.truthy = true
    · simp only [ht, if_true, List.mem_singleton] at hpr
      exact ⟨n, d, hn', hb, ht, hpr⟩
    · simp [ht] at hpr

end LoopLemmas

section StringLemmas

/-- String containment, stated on the underlying character lists. -/
def str_infix (a b : String) : Prop := a.data <:+: b.data

theorem str_infix_append_left {a m : String} (x : String) (h : str_infix a m) :
    str_infix a (x ++ m) := by
  obtain ⟨u, v, huv⟩ := h
  exact ⟨x.data ++ u, v, by rw [String.data_append]; simp [← huv, List.append_assoc]⟩

theorem str_infix_append_right {a m : String} (y : String) (h : str_infix a m) :
    str_infix a (m ++ y) := by
  obtain ⟨u, v, huv⟩ := h
  exact ⟨u, v ++ y.data, by rw [String.data_append, ← huv]; simp [List.append_assoc]⟩

theorem str_infix_refl (a : String) : str_infix a a :=
  ⟨[], [], by simp⟩

theorem foldl_append_hoist :
    ∀ (l : List String) (a : String),
      List.foldl (· ++ ·) a l = a ++ List.foldl (· ++ ·) "" l := by
  intro l
  induction l with
  | nil => intro a; simp [List.foldl]
  | cons b t ih =>
    intro a
    simp only [List.foldl]
    rw [ih (a ++ b), ih ("" ++ b)]
    simp [String.append_assoc]

theorem str_concat_cons (s : String) (l : List String) :
    str_concat (s :: l) = s ++ str_concat l := by
  unfold str_concat
  simp only [List.foldl]
  rw [foldl_append_hoist l ("" ++ s)]
  simp

theorem str_infix_concat_of_mem {s : String} :
    ∀ {l : List String}, s ∈ l → str_infix s (str_concat l) := by
  intro l
  induction l with
  | nil => intro h; simp at h
  | cons b t ih =>
    intro h
    rw [str_concat_cons]
    rcases List.mem_cons.1 h with rfl | ht
    · exact str_infix_append_right _ (str_infix_refl s)
    · exact str_infix_append_left _ (ih ht)

end StringLemmas

section AnalysisLemmas

theorem basic_pr_analysis_preserves (parseType : Bool) (env : Env)
    (pr : PRInfo) :
    (basic_pr_analysis parseType env pr).is_important = pr.is_important ∧
    (basic_pr_analysis parseType env pr).detailed_analysis =
      pr.detailed_analysis ∧
    (basic_pr_analysis parseType env pr).number = pr.number := by
  unfold basic_pr_analysis
  cases env.classify pr.number with
  | none => exact ⟨rfl, rfl, rfl⟩
  | some r => exact ⟨rfl, rfl, rfl⟩

theorem analyze_single_pr_preserves (parseType : Bool) (env : Env)
    (pr : PRInfo) :
    (analyze_single_pr parseType env pr).1.is_important = pr.is_important ∧
    (analyze_single_pr parseType env pr).1.detailed_analysis =
      pr.detailed_analysis ∧
    (analyze_single_pr parseType env pr).1.number = pr.number := by
  unfold analyze_single_pr
  by_cases h : pr.highlight ≠ "" ∧ pr.function_value ≠ ""
  · simp [h]
  · simp [h, basic_pr_analysis_preserves]

theorem analyze_important_pr_fields (parseType : Bool) (env : Env)
    (pr : PRInfo) :
    (analyze_important_pr parseType env pr).1.highlight =
      (analyze_single_pr parseType env pr).1.highlight ∧
    (analyze_important_pr parseType env pr).1.function_value =
      (analyze_single_pr parseType env pr).1.function_value ∧
    (analyze_important_pr parseType env pr).1.score =
      (analyze_single_pr parseType env pr).1.score ∧
    (analyze_important_pr parseType env pr).1.pr_type =
      (analyze_single_pr parseType env pr).1.pr_type ∧
    (analyze_important_pr parseType env pr).1.is_important =
      (analyze_single_pr parseType env pr).1.is_important ∧
    (analyze_important_pr parseType env pr).1.number =
      (analyze_single_pr parseType env pr).1.number := by
  unfold analyze_important_pr
  cases h : env.deepDive (analyze_single_pr parseType env pr).1.number
      (!env.detailEnrichFails (analyze_single_pr parseType env pr).1.number) with
  | none => simp [h]
  | some d => simp [h]

theorem analyze_important_pr_fallback (parseType : Bool) (env : Env)
    (pr : PRInfo)
    (h : env.deepDive (analyze_single_pr parseType env pr).1.number
      (!env.detailEnrichFails (analyze_single_pr parseType env pr).1.number) =
        none) :
    (analyze_important_pr parseType env pr).1.detailed_analysis =
      deep_dive_fallback := by
  unfold analyze_important_pr
  simp [h]

end AnalysisLemmas

section PipelineLemmas

theorem analyze_important_pr_preserves_flag (parseType : Bool) (env : Env)
    (pr : PRInfo) :
    (analyze_important_pr parseType env pr).1.is_important = pr.is_important := by
  rw [(analyze_important_pr_fields parseType env pr).2.2.2.2.1,
    (analyze_single_pr_preserves parseType env pr).1]

theorem monthly_analyze_loop_eq_map (env : Env) :
    ∀ prs : List PRInfo,
      Monthly.analyze_loop env prs = prs.map (Monthly.analyze_step env) := by
  intro prs
  induction prs with
  | nil => rfl
  | cons pr rest ih => simp [Monthly.analyze_loop, ih]

theorem changelog_analyze_eq_map (env : Env) :
    ∀ prs : List PRInfo,
      Changelog.analyze_prs_with_llm env prs =
        prs.map (Changelog.analyze_step env) := by
  intro prs
  induction prs with
  | nil => rfl
  | cons pr rest ih => simp [Changelog.analyze_prs_with_llm, ih]

theorem score_default_fields (a : PRInfo) :
    (Monthly.score_default a).is_important = a.is_important ∧
    (Monthly.score_default a).detailed_analysis = a.detailed_analysis ∧
    (Monthly.score_default a).highlight = a.highlight ∧
    (Monthly.score_default a).function_value = a.function_value ∧
    (Monthly.score_default a).number = a.number := by
  unfold Monthly.score_default
  by_cases hs : a.score ≠ 0
  · rw [if_pos hs]; exact ⟨rfl, rfl, rfl, rfl, rfl⟩
  · rw [if_neg hs]; exact ⟨rfl, rfl, rfl, rfl, rfl⟩

theorem monthly_step_flag (env : Env) (pr : PRInfo) :
    (Monthly.analyze_step env pr).is_important = pr.is_important := by
  unfold Monthly.analyze_step
  by_cases hr : env.analysisRaises pr.number = true
  · rw [if_pos hr]
  · rw [if_neg hr]
    by_cases hi : pr.is_important = true
    · rw [if_pos hi, (score_default_fields _).1,
        analyze_important_pr_preserves_flag]
    · rw [if_neg hi, (score_default_fields _).1,
        (analyze_single_pr_preserves false env pr).1]

theorem monthly_step_narrative_of_normal (env : Env) (pr : PRInfo)
    (hi : pr.is_important = false) :
    (Monthly.analyze_step env pr).detailed_analysis =
      pr.detailed_analysis := by
  unfold Monthly.analyze_step
  by_cases hr : env.analysisRaises pr.number = true
  · rw [if_pos hr]
  · rw [if_neg hr, if_neg (by simp [hi]), (score_default_fields _).2.1,
      (analyze_single_pr_preserves false env pr).2.1]

theorem monthly_step_invariant (env : Env) (pr : PRInfo)
    (h : pr.detailed_analysis ≠ "" → pr.is_important = true) :
    (Monthly.analyze_step env pr).detailed_analysis ≠ "" →
      (Monthly.analyze_step env pr).is_important = true := by
  intro hne
  rw [monthly_step_flag]
  by_cases hi : pr.is_important = true
  · exact hi
  · have hfalse : pr.is_important = false := by
      cases hb : pr.is_important
      · rfl
      · exact absurd hb hi
    rw [monthly_step_narrative_of_normal env pr hfalse] at hne
    exact h hne

theorem changelog_step_flag (env : Env) (pr : PRInfo) :
    (Changelog.analyze_step env pr).is_important = pr.is_important := by
  unfold Changelog.analyze_step
  by_cases hr : env.analysisRaises pr.number = true
  · rw [if_pos hr]
  · rw [if_neg hr]
    by_cases hi : pr.is_important = true
    · rw [if_pos hi, analyze_important_pr_preserves_flag]
    · rw [if_neg hi, (analyze_single_pr_preserves true env pr).1]

theorem changelog_step_narrative_of_normal (env : Env) (pr : PRInfo)
    (hi : pr.is_important = false) :
    (Changelog.analyze_step env pr).detailed_analysis =
      pr.detailed_analysis := by
  unfold Changelog.analyze_step
  by_cases hr : env.analysisRaises pr.number = true
  · rw [if_pos hr]
    simp [hi]
  · rw [if_neg hr, if_neg (by simp [hi]),
      (analyze_single_pr_preserves true env pr).2.1]

theorem changelog_step_invariant (env : Env) (pr : PRInfo)
    (h : pr.detailed_analysis ≠ "" → pr.is_important = true) :
    (Changelog.analyze_step env pr).detailed_analysis ≠ "" →
      (Changelog.analyze_step env pr).is_important = true := by
  intro hne
  rw [changelog_step_flag]
  by_cases hi : pr.is_important = true
  · exact hi
  · have hfalse : pr.is_important = false := by
      cases hb : pr.is_important
      · rfl
      · exact absurd hb hi
    rw [changelog_step_narrative_of_normal env pr hfalse] at hne
    exact h hne

theorem create_pr_info_narrative (d : PRData) (b : Bool) :
    (create_pr_info d b).detailed_analysis = "" := rfl

theorem monthly_retrieval_narrative_empty {env : Env} {m y : Nat}
    {imp : List Nat} {pr : PRInfo}
    (h : pr ∈ (Monthly.get_pr_list env m y imp).1) :
    pr.detailed_analysis = "" := by
  unfold Monthly.get_pr_list at h
  rcases List.mem_append.1 h with hl | hr
  · obtain ⟨d, _, _, rfl⟩ := mem_window_loop hl
    rfl
  · obtain ⟨n, d, _, _, _, rfl⟩ := mem_important_merge_step hr
    rfl

theorem changelog_retrieval_narrative_empty {env : Env}
    {pr_num_list imp : List Nat} {pr : PRInfo}
    (h : pr ∈ Changelog.get_pr_list env pr_num_list imp) :
    pr.detailed_analysis = "" := by
  unfold Changelog.get_pr_list at h
  by_cases he : pr_num_list = []
  · rw [if_pos he] at h; simp at h
  · rw [if_neg he] at h
    obtain ⟨n, _, hpr⟩ := List.mem_flatMap.1 h
    cases hb : env.byId n with
    | none => rw [hb] at hpr; simp at hpr
    | some d =>
      rw [hb] at hpr
      simp only [List.mem_singleton] at hpr
      rw [hpr]

theorem mem_monthly_analyze {env : Env} {prs : List PRInfo} {pr' : PRInfo}
    (h : pr' ∈ Monthly.analyze_prs_with_llm env prs) :
    ∃ pr ∈ prs, pr' = Monthly.analyze_step env pr := by
  unfold Monthly.analyze_prs_with_llm at h
  have h2 := List.take_subset _ _ h
  rw [mem_sort_desc_by] at h2
  rw [monthly_analyze_loop_eq_map] at h2
  obtain ⟨pr, hpr, heq⟩ := List.mem_map.1 h2
  exact ⟨pr, hpr, heq.symm⟩

end PipelineLemmas

section RenderLemmas

theorem str_infix_trans {a b c : String} (h1 : str_infix a b)
    (h2 : str_infix b c) : str_infix a c :=
  List.IsInfix.trans h1 h2

theorem mem_group_of_type {prs : List PRInfo} {pr : PRInfo} (h : pr ∈ prs) :
    pr ∈ group_of_type prs (pr.pr_type.getD .feature) := by
  unfold group_of_type
  rw [mem_sort_desc_by]
  exact List.mem_filter.2 ⟨h, by simp⟩

theorem type_in_changelog_order (t : PRType) :
    ∃ title, (t, title) ∈ changelog_type_order := by
  cases t
  · exact ⟨"### 🚀 新功能 (Features)", by decide⟩
  · exact ⟨"### 🐛 Bug修复 (Bug Fixes)", by decide⟩
  · exact ⟨"### 📚 文档更新 (Documentation)", by decide⟩
  · exact ⟨"### ♻️ 重构优化 (Refactoring)", by decide⟩
  · exact ⟨"### 🧪 测试改进 (Testing)", by decide⟩

theorem entry_infix_block {prs : List PRInfo} {pr : PRInfo} (title : String)
    (h : pr ∈ prs) :
    str_infix (entry_string pr)
      (changelog_type_block prs (pr.pr_type.getD .feature, title)) := by
  have hg := mem_group_of_type h
  unfold changelog_type_block
  rw [if_neg (List.ne_nil_of_mem hg)]
  exact str_infix_append_left _
    (str_infix_concat_of_mem (List.mem_map_of_mem entry_string hg))

theorem block_infix_section {normal : List PRInfo} {tt : PRType × String}
    (hne : normal ≠ []) (hto : tt ∈ changelog_type_order) :
    str_infix (changelog_type_block normal tt)
      (generate_changelog_section normal) := by
  unfold generate_changelog_section
  rw [if_neg hne]
  exact str_infix_append_left _
    (str_infix_concat_of_mem
      (List.mem_map_of_mem (changelog_type_block normal) hto))

theorem section_infix_report (prs : List PRInfo) :
    str_infix (generate_changelog_section (prs.filter fun pr => !pr.is_important))
      (Changelog.generate_report prs) := by
  unfold Changelog.generate_report
  exact str_infix_append_right _ (str_infix_append_left _ (str_infix_refl _))

end RenderLemmas

theorem important_merge_retained (env : Env) (imp : List Nat) (n : Nat)
    (d : PRData) (L : List PRInfo) (hn : n ∈ imp) (hb : env.byId n = some d)
    (ht : d.merged.truthy = true) (hnum : d.number = n) :
    ∃ pr ∈ L ++ important_merge_step env imp L, pr.number = n := by
  by_cases hex : n ∈ L.map (·.number)
  · obtain ⟨pr, hpr, hprn⟩ := List.mem_map.1 hex
    exact ⟨pr, List.mem_append_left _ hpr, hprn⟩
  · refine ⟨create_pr_info d true, List.mem_append_right _ ?_, hnum⟩
    unfold important_merge_step
    apply List.mem_flatMap.2
    refine ⟨n, List.mem_filter.2 ⟨hn, by simpa using hex⟩, ?_⟩
    rw [hb]
    simp [ht]

set_option maxRecDepth 4000

/-- Claim C1, counterexample: with eleven in-window records all scoring 100
and flagged id 100 fetchable, merged (January 2025, outside the May 2025
window) but scoring 10, the analysis stage keeps only the top ten records,
so id 100 appears zero times — not exactly once — in the final assembled
record collection the report is rendered from. -/
theorem c1_counterexample :
    (100 : Nat) ∈ ([100] : List Nat) ∧
    c1_env.byId 100 = some c1_important_pr ∧
    c1_important_pr.merged.truthy = true ∧
    ((Monthly.final_records c1_env 5 2025 [100]).filter
      (fun pr => pr.number == 100)).length = 0 := by
  exact ⟨by decide, by decide, by decide, by decide⟩

/-- Claim C1, amended: every caller-flagged id whose individually fetched
change-set has a merge timestamp (and whose fetched data carries that id)
appears at least once in the record collection produced by retrieval,
regardless of its merge date; the analysis stage's top-N selection may then
drop it from the final collection. -/
theorem c1_flagged_merged_retained_in_retrieval (env : Env)
    (month0 year0 : Nat) (imp : List Nat) (n : Nat) (d : PRData)
    (hn : n ∈ imp) (hb : env.byId n = some d)
    (ht : d.merged.truthy = true) (hnum : d.number = n) :
    ∃ pr ∈ (Monthly.get_pr_list env month0 year0 imp).1, pr.number = n := by
  unfold Monthly.get_pr_list
  exact important_merge_retained env imp n d _ hn hb ht hnum

/-- Claim C1, witness: applying the amended theorem to the concrete
environment with flagged id 100. -/
theorem c1_witness :
    ∃ pr ∈ (Monthly.get_pr_list c1_env 5 2025 [100]).1, pr.number = 100 :=
  c1_flagged_merged_retained_in_retrieval c1_env 5 2025 [100] 100
    c1_important_pr (by decide) (by decide) (by decide) (by decide)

/-- Claim C2, counterexample: an environment whose listing endpoint returns
on every page a non-empty page whose last (and only) item was merged in
March 2025, strictly before the requested May 2025 window; the loop does
not stop early but issues all 20 page requests up to the ceiling, because
the cutoff inspects the last element of the month-filtered page. -/
theorem c2_counterexample :
    c2_env.pages 1 = [c2_old_pr] ∧ c2_env.pages 20 = [c2_old_pr] ∧
    extract_year_month c2_old_pr.merged = some (2025, 3) ∧
    (Monthly.get_pr_list c2_env 5 2025 []).2 = 20 := by
  exact ⟨by decide, by decide, by decide, by decide⟩

/-- Claim C2, amended: the windowed loop stops paging only on an empty page
or at the 20-page ceiling.  The merge-date cutoff compares the last element
of the month-filtered page, whose elements are all exactly in-window, so
the cutoff test is never taken; consequently, whenever all 20 pages are
non-empty the loop issues exactly 20 listing requests, whatever the merge
dates on those pages. -/
theorem c2_cutoff_dead_and_ceiling (env : Env) (month0 year0 : Nat)
    (imp : List Nat) (hm : month0 ≠ 0) (hy : year0 ≠ 0) :
    (∀ prs : List PRData,
      page_cutoff (filter_prs_by_month prs month0 year0) month0 year0 = false) ∧
    ((∀ q, 1 ≤ q → q ≤ 20 → env.pages q ≠ []) →
      (Monthly.get_pr_list env month0 year0 imp).2 = 20) := by
  constructor
  · intro prs
    exact page_cutoff_of_filter_false prs month0 year0 hm hy
  · intro hpages
    show (window_loop env (if month0 = 0 then env.nowMonth else month0)
      (if year0 = 0 then env.nowYear else year0) imp 1 20).2 = 20
    rw [if_neg hm, if_neg hy]
    exact window_loop_count_of_nonempty env month0 year0 imp hm hy 20 1
      (fun q h1 h2 => hpages q h1 (by omega))

/-- Claim C2, witness: the amended theorem applied to the concrete
all-pages-non-empty environment. -/
theorem c2_witness :
    page_cutoff (filter_prs_by_month [c2_old_pr] 5 2025) 5 2025 = false ∧
    (Monthly.get_pr_list c2_env 5 2025 []).2 = 20 :=
  ⟨(c2_cutoff_dead_and_ceiling c2_env 5 2025 [] (by decide) (by decide)).1
      [c2_old_pr],
   (c2_cutoff_dead_and_ceiling c2_env 5 2025 [] (by decide) (by decide)).2
      (fun q _ _ => by simp [c2_env, null_env])⟩

/-- Claim C3, counterexample: the changelog id-list retrieval performs no
merged/draft check, so an unmerged draft change-set returned for id 1
appears in the retrieved collection and survives the analysis stage. -/
theorem c3_counterexample :
    c3_draft_pr.draft = true ∧ c3_draft_pr.merged.truthy = false ∧
    (Changelog.get_pr_list c3_env [1] []).map (·.number) = [1] ∧
    (Changelog.analyze_prs_with_llm c3_env
      (Changelog.get_pr_list c3_env [1] [])).map (·.number) = [1] := by
  exact ⟨by decide, by decide, by decide, by decide⟩

/-- Claim C3, amended: in the monthly pipeline every retrieved record is
built from data with a truthy merge timestamp; records from the windowed
path are additionally guaranteed non-draft, while the out-of-window
important-id step checks only the merge timestamp (not the draft flag).
The changelog id-list path applies neither exclusion (see the
counterexample). -/
theorem c3_monthly_exclusions (env : Env) (m y : Nat) (imp : List Nat)
    (pr : PRInfo) (h : pr ∈ (Monthly.get_pr_list env m y imp).1) :
    ∃ d : PRData, d.merged.truthy = true ∧
      (d.draft = false ∧ pr = create_pr_info d (decide (d.number ∈ imp)) ∨
        pr = create_pr_info d true) := by
  unfold Monthly.get_pr_list at h
  rcases List.mem_append.1 h with hl | hr
  · obtain ⟨d, h1, h2, h3⟩ := mem_window_loop hl
    exact ⟨d, h1, Or.inl ⟨h2, h3⟩⟩
  · obtain ⟨n, d, _, _, h1, h2⟩ := mem_important_merge_step hr
    exact ⟨d, h1, Or.inr h2⟩

/-- Claim C3, witness: the amended theorem applied to the record retrieved
from the one-page in-window environment. -/
theorem c3_witness :
    ∃ d : PRData, d.merged.truthy = true ∧
      (d.draft = false ∧
        create_pr_info w_page_pr false = create_pr_info d (decide (d.number ∈ ([] : List Nat))) ∨
        create_pr_info w_page_pr false = create_pr_info d true) :=
  c3_monthly_exclusions w_env 5 2025 [] (create_pr_info w_page_pr false)
    (by decide)

/-- Claim C4, counterexample: a flagged-important analyzed record never gets
a compact grouped entry — with a single important record the category-grouped
changelog section is empty, and its compact entry text occurs nowhere in the
rendered document (it is rendered in the separate important-features format
instead). -/
theorem c4_counterexample :
    c4_important_rec.is_important = true ∧
    generate_changelog_section
      ([c4_important_rec].filter (fun pr => !pr.is_important)) = "" ∧
    ¬ ((entry_string c4_important_rec).data <:+:
        (Changelog.generate_report [c4_important_rec]).data) := by
  exact ⟨by decide, by decide, by decide⟩

/-- Claim C4, amended: in the changelog render variant every record NOT
flagged important appears as a compact grouped entry inside the rendered
document's category-grouped changelog section (categories in the fixed
order feature, bugfix, refactor, documentation, test), flagged records are
rendered in the separate important-features section instead, and the
document ends with the statistics block computed over all records. -/
theorem c4_grouped_entries_for_normal_records (prs : List PRInfo)
    (pr : PRInfo) (hmem : pr ∈ prs) (hni : pr.is_important = false) :
    str_infix (entry_string pr) (Changelog.generate_report prs) ∧
    ∃ s, Changelog.generate_report prs = s ++ generate_statistics_section prs := by
  constructor
  · have hmemN : pr ∈ prs.filter (fun q => !q.is_important) :=
      List.mem_filter.2 ⟨hmem, by simp [hni]⟩
    obtain ⟨title, hto⟩ := type_in_changelog_order (pr.pr_type.getD .feature)
    have h1 := entry_infix_block title hmemN
    have h2 := block_infix_section (List.ne_nil_of_mem hmemN) hto
    exact str_infix_trans (str_infix_trans h1 h2) (section_infix_report prs)
  · exact ⟨_, rfl⟩

/-- Claim C4, witness: the amended theorem applied to a two-record
collection with one normal bugfix record. -/
theorem c4_witness :
    str_infix (entry_string c4_normal_rec)
      (Changelog.generate_report [c4_important_rec, c4_normal_rec]) ∧
    ∃ s, Changelog.generate_report [c4_important_rec, c4_normal_rec] =
      s ++ generate_statistics_section [c4_important_rec, c4_normal_rec] :=
  c4_grouped_entries_for_normal_records [c4_important_rec, c4_normal_rec]
    c4_normal_rec (by decide) (by decide)

/-- Claim C5, counterexample: invoking the changelog pipeline with an empty
id list does not fail — it produces a non-empty degenerate report document
and hands it to the persistence step as `report.md`. -/
theorem c5_counterexample :
    (Changelog.create_report null_env [] [] false).2 =
      [("report.md", Changelog.generate_report [])] ∧
    Changelog.generate_report [] ≠ "" := by
  exact ⟨by decide, by decide⟩

/-- Claim C5, amended: given an empty id list the changelog retrieval
returns an empty record list after a logged warning, and the pipeline then
proceeds through analysis and rendering, producing the zero-entry report
document and persisting it as `report.md` (plus a translated copy when
requested); the only fatal validation lives in the out-of-scope args-mode
CLI layer. -/
theorem c5_empty_id_list_degenerate_report (env : Env) (imp : List Nat)
    (t : Bool) :
    Changelog.get_pr_list env [] imp = [] ∧
    (Changelog.create_report env [] imp t).1 = Changelog.generate_report [] ∧
    ("report.md", Changelog.generate_report []) ∈
      (Changelog.create_report env [] imp t).2 := by
  refine ⟨rfl, rfl, ?_⟩
  exact List.mem_append_left _ (List.mem_singleton.2 rfl)

/-- Claim C6: for every window query the monthly retrieval loop issues at
most 20 page-listing requests to the source-control collaborator, whatever
the collaborator returns. -/
theorem c6_page_request_ceiling (env : Env) (month0 year0 : Nat)
    (imp : List Nat) :
    (Monthly.get_pr_list env month0 year0 imp).2 ≤ 20 := by
  show (window_loop env (if month0 = 0 then env.nowMonth else month0)
    (if year0 = 0 then env.nowYear else year0) imp 1 20).2 ≤ 20
  exact window_loop_count_le env _ _ imp 20 1

/-- Claim C7: when the standard classification response does not parse
(`classify` returns none), highlight and function_value receive the generic
fallbacks only if previously empty — populated values and the score are
never overwritten — and re-running classification on a record whose
highlight and function_value are both non-empty returns the record
unchanged without issuing any text-generation request. -/
theorem c7_fallback_only_if_empty :
    (∀ (b : Bool) (env : Env) (pr : PRInfo), env.classify pr.number = none →
      (analyze_single_pr b env pr).1.highlight =
        (if pr.highlight = "" then "技术更新" else pr.highlight) ∧
      (analyze_single_pr b env pr).1.function_value =
        (if pr.function_value = "" then "功能改进" else pr.function_value) ∧
      (analyze_single_pr b env pr).1.score = pr.score) ∧
    (∀ (b : Bool) (env : Env) (pr : PRInfo),
      pr.highlight ≠ "" → pr.function_value ≠ "" →
      analyze_single_pr b env pr = (pr, 0)) := by
  constructor
  · intro b env pr hnone
    unfold analyze_single_pr
    by_cases hcond : pr.highlight ≠ "" ∧ pr.function_value ≠ ""
    · rw [if_pos hcond]
      exact ⟨(if_neg hcond.1).symm, (if_neg hcond.2).symm, rfl⟩
    · rw [if_neg hcond]
      unfold basic_pr_analysis
      rw [hnone]
      exact ⟨rfl, rfl, rfl⟩
  · intro b env pr h1 h2
    unfold analyze_single_pr
    rw [if_pos ⟨h1, h2⟩]

/-- Claim C7, witness: the theorem applied to an already-populated record
(returned unchanged, zero requests) and to a blank record under a
non-parsing response (generic fallback installed). -/
theorem c7_witness :
    analyze_single_pr false null_env c7_done_rec = (c7_done_rec, 0) ∧
    (analyze_single_pr false null_env c7_fresh_rec).1.highlight =
      (if c7_fresh_rec.highlight = "" then "技术更新" else c7_fresh_rec.highlight) :=
  ⟨c7_fallback_only_if_empty.2 false null_env c7_done_rec (by decide) (by decide),
   (c7_fallback_only_if_empty.1 false null_env c7_fresh_rec rfl).1⟩

/-- Claim C8, counterexample: a failure of the enriched detail retrieval
alone does not produce the generic unavailable-narrative — the stage
degrades to the basic payload and still runs the generation call, and when
that call succeeds the record receives a real narrative. -/
theorem c8_counterexample :
    c8_env.detailEnrichFails 7 = true ∧
    (analyze_important_pr false c8_env c8_rec).1.detailed_analysis =
      "**使用背景**\n\n背景" ∧
    (analyze_important_pr false c8_env c8_rec).1.detailed_analysis ≠
      deep_dive_fallback := by
  exact ⟨by decide, by decide, by decide⟩

/-- Claim C8, amended: the deep-dive pass never changes the fields populated
by the standard classification (highlight, function_value, score, category),
and whenever the generation call raises or its response cannot be parsed the
narrative is set to the generic unavailable text; a failure of the enriched
detail retrieval alone merely degrades the payload and proceeds. -/
theorem c8_deep_dive_preserves_classification (b : Bool) (env : Env)
    (pr : PRInfo) :
    (analyze_important_pr b env pr).1.highlight =
      (analyze_single_pr b env pr).1.highlight ∧
    (analyze_important_pr b env pr).1.function_value =
      (analyze_single_pr b env pr).1.function_value ∧
    (analyze_important_pr b env pr).1.score =
      (analyze_single_pr b env pr).1.score ∧
    (analyze_important_pr b env pr).1.pr_type =
      (analyze_single_pr b env pr).1.pr_type ∧
    (env.deepDive (analyze_single_pr b env pr).1.number
        (!env.detailEnrichFails (analyze_single_pr b env pr).1.number) = none →
      (analyze_important_pr b env pr).1.detailed_analysis =
        deep_dive_fallback) := by
  refine ⟨(analyze_important_pr_fields b env pr).1,
    (analyze_important_pr_fields b env pr).2.1,
    (analyze_important_pr_fields b env pr).2.2.1,
    (analyze_important_pr_fields b env pr).2.2.2.1,
    fun h => analyze_important_pr_fallback b env pr h⟩

/-- Claim C8, witness: the amended theorem applied to the blank important
record under an environment whose deep-dive call never parses. -/
theorem c8_witness :
    (analyze_important_pr false null_env c8_rec).1.highlight =
      (analyze_single_pr false null_env c8_rec).1.highlight ∧
    (analyze_important_pr false null_env c8_rec).1.detailed_analysis =
      deep_dive_fallback :=
  ⟨(c8_deep_dive_preserves_classification false null_env c8_rec).1,
   (c8_deep_dive_preserves_classification false null_env c8_rec).2.2.2.2 rfl⟩

/-- Claim C9: the deep-dive-narrative invariant.  Every record produced by
either retrieval path has an empty narrative, and both analysis stages
preserve the invariant that a non-empty narrative implies the important
flag; hence after every pipeline stage a record's narrative is non-empty
only if the record is flagged important. -/
theorem c9_narrative_only_if_important :
    (∀ (env : Env) (m y : Nat) (imp : List Nat) (pr : PRInfo),
      pr ∈ (Monthly.get_pr_list env m y imp).1 → pr.detailed_analysis = "") ∧
    (∀ (env : Env) (l imp : List Nat) (pr : PRInfo),
      pr ∈ Changelog.get_pr_list env l imp → pr.detailed_analysis = "") ∧
    (∀ (env : Env) (prs : List PRInfo) (q : PRInfo),
      (∀ pr ∈ prs, pr.detailed_analysis ≠ "" → pr.is_important = true) →
      q ∈ Monthly.analyze_prs_with_llm env prs →
      q.detailed_analysis ≠ "" → q.is_important = true) ∧
    (∀ (env : Env) (prs : List PRInfo) (q : PRInfo),
      (∀ pr ∈ prs, pr.detailed_analysis ≠ "" → pr.is_important = true) →
      q ∈ Changelog.analyze_prs_with_llm env prs →
      q.detailed_analysis ≠ "" → q.is_important = true) := by
  refine ⟨?_, ?_, ?_, ?_⟩
  · intro env m y imp pr h
    exact monthly_retrieval_narrative_empty h
  · intro env l imp pr h
    exact changelog_retrieval_narrative_empty h
  · intro env prs q hinv hq
    obtain ⟨pr, hpr, rfl⟩ := mem_monthly_analyze hq
    exact monthly_step_invariant env pr (hinv pr hpr)
  · intro env prs q hinv hq
    rw [changelog_analyze_eq_map] at hq
    obtain ⟨pr, hpr, rfl⟩ := List.mem_map.1 hq
    exact changelog_step_invariant env pr (hinv pr hpr)

/-- Claim C9, witness: the invariant theorem applied to a concrete retrieved
record (empty narrative) and to a concrete analyzed important record whose
deep-dive succeeded (non-empty narrative forces the important flag). -/
theorem c9_witness :
    (create_pr_info w_page_pr false).detailed_analysis = "" ∧
    (Monthly.analyze_step c8_env c8_rec).is_important = true :=
  ⟨c9_narrative_only_if_important.1 w_env 5 2025 []
      (create_pr_info w_page_pr false) (by decide),
   c9_narrative_only_if_important.2.2.1 c8_env [c8_rec]
      (Monthly.analyze_step c8_env c8_rec) (by decide) (by decide) (by decide)⟩

/-- Claim C10: the monthly analysis stage returns only the top N analyzed
records.  The output equals the per-record analysis results sorted by
descending score and truncated to `GOOD_PR_NUM` (default 10 when the
variable is unset); its length is the minimum of N and the input length, it
is sorted by descending score, every record dropped beyond the top N scores
no higher than every kept record, a record whose loop body raised receives
score 30, and a record whose analysis yielded a falsy score receives the
default 50. -/
theorem c10_top_n_selection (env : Env) (prs : List PRInfo) :
    Monthly.analyze_prs_with_llm env prs =
      (sort_desc_by (fun pr => pr.score)
        (prs.map (Monthly.analyze_step env))).take (env.goodPrNumEnv.getD 10) ∧
    (Monthly.analyze_prs_with_llm env prs).length =
      min (env.goodPrNumEnv.getD 10) prs.length ∧
    (Monthly.analyze_prs_with_llm env prs).Pairwise
      (fun u v => v.score ≤ u.score) ∧
    (∀ x ∈ Monthly.analyze_prs_with_llm env prs,
      ∀ y ∈ (sort_desc_by (fun pr => pr.score)
        (prs.map (Monthly.analyze_step env))).drop (env.goodPrNumEnv.getD 10),
      y.score ≤ x.score) ∧
    (env.goodPrNumEnv = none → env.goodPrNumEnv.getD 10 = 10) ∧
    (∀ pr : PRInfo, env.analysisRaises pr.number = true →
      (Monthly.analyze_step env pr).score = 30) ∧
    (∀ pr : PRInfo, env.analysisRaises pr.number = false →
      pr.is_important = false → (analyze_single_pr false env pr).1.score = 0 →
      (Monthly.analyze_step env pr).score = 50) := by
  have hmap : Monthly.analyze_prs_with_llm env prs =
      (sort_desc_by (fun pr => pr.score)
        (prs.map (Monthly.analyze_step env))).take (env.goodPrNumEnv.getD 10) := by
    unfold Monthly.analyze_prs_with_llm
    rw [monthly_analyze_loop_eq_map]
  have hpair := pairwise_sort_desc_by (fun pr => pr.score)
    (prs.map (Monthly.analyze_step env))
  refine ⟨hmap, ?_, ?_, ?_, ?_, ?_, ?_⟩
  · rw [hmap, List.length_take, length_sort_desc_by, List.length_map]
  · rw [hmap]
    exact hpair.sublist (List.take_sublist _ _)
  · intro x hx y hy
    rw [hmap] at hx
    have hsplit := hpair
    rw [← List.take_append_drop (env.goodPrNumEnv.getD 10)
      (sort_desc_by (fun pr => pr.score) (prs.map (Monthly.analyze_step env)))]
      at hsplit
    exact (List.pairwise_append.1 hsplit).2.2 x hx y hy
  · intro h
    rw [h]
    rfl
  · intro pr h
    unfold Monthly.analyze_step
    rw [if_pos h]
  · intro pr h1 h2 h3
    unfold Monthly.analyze_step
    rw [if_neg (by simp [h1]), if_neg (by simp [h2])]
    unfold Monthly.score_default
    rw [if_neg (by simp [h3])]

/-- Claim C10, witness: the theorem applied to a one-record input under an
environment whose loop body raises for that record. -/
theorem c10_witness :
    (Monthly.analyze_prs_with_llm c10_env [c10_rec]).length =
      min (c10_env.goodPrNumEnv.getD 10) [c10_rec].length ∧
    (Monthly.analyze_step c10_env c10_rec).score = 30 :=
  ⟨(c10_top_n_selection c10_env [c10_rec]).2.1,
   (c10_top_n_selection c10_env [c10_rec]).2.2.2.2.2.1 c10_rec (by decide)⟩
